import Mathlib

/-!
# CodeGuard: `uploaded_files/manual_input.c`

A shallow embedding of the single procedure `main` of the fixture and the
properties of its observable behaviour (bytes written to standard output and
the way the process ends).

The five `int` locals of `main` live in one stack frame whose slots hold
indeterminate values until they are assigned; the frame is therefore a
parameter of every run.  The divisor `y` is initialised from a parameter `d`
(`mainWith`); the program as written is the instance `d = 0` (`main`).
Loops are run by one fuel-bounded combinator, so that termination is proved
(enough fuel yields a result) and not assumed.  The locals are modelled by
unbounded integers: the only values ever stored are `d`, `10 / d`, the counter
`0 … 42` and `100`, none of which leaves the range of a 32-bit `int`.
-/

namespace CodeGuard

/-! ## Data model -/

/-- Fatal runtime errors of the C abstract machine that this program can meet. -/
inductive Fault where
  | divByZero
  deriving DecidableEq

/-- How a run of `main` ends: `return code`, or a fatal fault. -/
inductive Status where
  | returned (code : Int)
  | faulted (f : Fault)
  deriving DecidableEq

/-- The stack frame of `main` together with the bytes written to `stdout` so far.
Slots `x`, `y`, `result`, `i`, `unusedVar` are the five `int` locals. -/
structure State where
  x : Int
  y : Int
  result : Int
  i : Int
  unusedVar : Int
  stdout : String
  deriving DecidableEq

/-- What an observer of the process sees: the output stream and the ending. -/
structure Observation where
  stdout : String
  status : Status
  deriving DecidableEq

/-- Signal with which a loop body finishes: fall through to the next
iteration, or leave the loop (`break`). -/
inductive Ctl where
  | next
  | brk
  deriving DecidableEq

/-! ## C primitives used by `main` -/

/-- C integer division `a / b`: truncation toward zero, fatal when `b = 0`. -/
def c_div (a b : Int) : Except Fault Int :=
  if b = 0 then Except.error Fault.divByZero else Except.ok (Int.tdiv a b)

/-- Rendering of an `int` by the `%d` conversion of `printf`. -/
def fmt_d (v : Int) : String :=
  if v < 0 then "-" ++ Nat.repr v.natAbs else Nat.repr v.natAbs

/-- Write a string to standard output. -/
def puts (s : State) (text : String) : State :=
  { s with stdout := s.stdout ++ text }

/-- The generic C loop.  One round tests `cond`, runs `body`, and unless the
body ended in `break`, runs `incr` and goes round again.  The result carries
the number of times the body was executed; `none` means the fuel ran out. -/
def loop (cond : State → Bool) (body : State → Ctl × State) (incr : State → State) :
    Nat → State → Option (Nat × State)
  | 0, _ => none
  | fuel + 1, s =>
    if cond s then
      match body s with
      | (Ctl.brk, s1) => some (1, s1)
      | (Ctl.next, s1) =>
        match loop cond body incr fuel (incr s1) with
        | none => none
        | some (n, s2) => some (n + 1, s2)
    else some (0, s)

/-! ## The procedure `main` -/

/-- Body of the counted loop: `printf("Iteration %d\n", i);`. -/
def iterationBody (s : State) : Ctl × State :=
  (Ctl.next, puts s ("Iteration " ++ fmt_d s.i ++ "\n"))

/-- The loop `for (int i = 0; i < 42; i++) { printf("Iteration %d\n", i); }`. -/
def countedLoop (fuel : Nat) (s : State) : Option (Nat × State) :=
  loop (fun t => decide (t.i < 42)) iterationBody (fun t => { t with i := t.i + 1 }) fuel
    { s with i := 0 }

/-- Body of the last loop: `printf("This will run forever!\n"); break;`. -/
def foreverBody (s : State) : Ctl × State :=
  (Ctl.brk, puts s "This will run forever!\n")

/-- The loop `while (1) { printf("This will run forever!\n"); break; }`. -/
def foreverLoop (fuel : Nat) (s : State) : Option (Nat × State) :=
  loop (fun _ => decide ((1 : Int) ≠ 0)) foreverBody id fuel s

/-- The procedure `main`, with the initialiser of `y` taken as the parameter `d`.
`frame` is the content of the stack frame on entry; nothing has been written
to `stdout` yet.  The result is the final state and the way the run ended, or
`none` when a loop ran out of fuel. -/
def mainWith (fuel : Nat) (frame : State) (d : Int) : Option (State × Status) :=
  -- int x;
  let s0 : State := { frame with stdout := "" }
  -- int y = d;
  let s1 : State := { s0 with y := d }
  -- int result = 10 / y;
  match c_div 10 s1.y with
  | Except.error f => some (s1, Status.faulted f)
  | Except.ok q =>
    let s2 : State := { s1 with result := q }
    -- for (int i = 0; i < 42; i++) { ... }
    match countedLoop fuel s2 with
    | none => none
    | some (_, s3) =>
      -- int unusedVar = 100;
      let s4 : State := { s3 with unusedVar := 100 }
      -- while (1) { ...; break; }
      match foreverLoop fuel s4 with
      | none => none
      | some (_, s5) =>
        -- return 0;
        some (s5, Status.returned 0)

/-- The procedure `main` as written: `int y = 0;`. -/
def main (fuel : Nat) (frame : State) : Option (State × Status) :=
  mainWith fuel frame 0

/-- Projection of a finished run onto what can be observed from outside. -/
def observe (r : Option (State × Status)) : Option Observation :=
  r.map fun p => { stdout := p.1.stdout, status := p.2 }

/-! ## Program variants compared with `main` -/

/-- The procedure `main` with the statement `int unusedVar = 100;` deleted;
everything else is as in `mainWith`. -/
def mainWithoutDeadStore (fuel : Nat) (frame : State) (d : Int) : Option (State × Status) :=
  let s0 : State := { frame with stdout := "" }
  let s1 : State := { s0 with y := d }
  match c_div 10 s1.y with
  | Except.error f => some (s1, Status.faulted f)
  | Except.ok q =>
    let s2 : State := { s1 with result := q }
    match countedLoop fuel s2 with
    | none => none
    | some (_, s3) =>
      match foreverLoop fuel s3 with
      | none => none
      | some (_, s5) => some (s5, Status.returned 0)

/-- The procedure `main` with the `while (1) { ...; break; }` loop replaced by
its single print statement, executed once as straight-line code. -/
def mainStraightLine (fuel : Nat) (frame : State) (d : Int) : Option (State × Status) :=
  let s0 : State := { frame with stdout := "" }
  let s1 : State := { s0 with y := d }
  match c_div 10 s1.y with
  | Except.error f => some (s1, Status.faulted f)
  | Except.ok q =>
    let s2 : State := { s1 with result := q }
    match countedLoop fuel s2 with
    | none => none
    | some (_, s3) =>
      let s4 : State := { s3 with unusedVar := 100 }
      let s5 : State := puts s4 "This will run forever!\n"
      some (s5, Status.returned 0)

/-- A sample content of the stack frame on entry, used for concrete runs. -/
def sampleFrame : State :=
  { x := -7, y := 13, result := 99, i := 1000, unusedVar := 5, stdout := "stale" }

/-! ## Lines of an output stream -/

/-- Scan of a byte stream for newline-terminated lines; `cur` is the current
line read so far, reversed.  A trailing fragment without newline is no line. -/
def linesAux : List Char → List Char → List String
  | [], _ => []
  | c :: cs, cur =>
    if c = '\n' then String.mk cur.reverse :: linesAux cs [] else linesAux cs (c :: cur)

/-- The newline-terminated lines of a text, without their newlines. -/
def lines (text : String) : List String :=
  linesAux text.data []

/-- The text made of the given lines, each followed by a newline. -/
def unlines : List String → String
  | [] => ""
  | l :: ls => l ++ "\n" ++ unlines ls

/-- The line the counted loop is expected to print for index `k`. -/
def iterationLine (k : Nat) : String :=
  "Iteration " ++ Nat.repr k

/-- Test whether the character list `p` starts the character list `l`. -/
def startsWithChars : List Char → List Char → Bool
  | [], _ => true
  | _ :: _, [] => false
  | a :: p, b :: l => a == b && startsWithChars p l

/-- Lines of the form `Iteration <i>`: those that start with `Iteration `. -/
def isIterationLine (l : String) : Bool :=
  startsWithChars "Iteration ".data l.data

/-- The complete text written by a run that gets past the division. -/
def expectedOutput : String :=
  unlines ((List.range' 0 42).map iterationLine) ++ "This will run forever!\n"

/-! ## Auxiliary facts -/

theorem fmt_d_natCast (a : Nat) : fmt_d (a : Int) = Nat.repr a := by
  have h : ¬ ((a : Int) < 0) := by omega
  simp [fmt_d, h]

/-- Invariant of the counted loop: entered with `i = a` and `n = 42 - a` rounds to
go, it executes its body `n` times, appends the lines for `a, …, 41` and leaves
with `i = 42`, provided the fuel covers the `n + 1` tests of the guard. -/
theorem loop_counted (n : Nat) : ∀ (a fuel : Nat) (s : State),
    a + n = 42 → s.i = (a : Int) → n + 1 ≤ fuel →
    loop (fun t => decide (t.i < 42)) iterationBody (fun t => { t with i := t.i + 1 }) fuel s
      = some (n, { s with
          i := 42
          stdout := s.stdout ++ unlines ((List.range' a n).map iterationLine) }) := by
  induction n with
  | zero =>
    intro a fuel s ha hi hf
    obtain ⟨f, rfl⟩ : ∃ f, fuel = f + 1 := ⟨fuel - 1, by omega⟩
    have h42 : s.i = 42 := by rw [hi]; omega
    cases s
    simp_all [loop, unlines]
  | succ n ih =>
    intro a fuel s ha hi hf
    obtain ⟨f, rfl⟩ : ∃ f, fuel = f + 1 := ⟨fuel - 1, by omega⟩
    have hlt : s.i < 42 := by rw [hi]; omega
    have hi1 : s.i + 1 = ((a + 1 : Nat) : Int) := by rw [hi]; push_cast; ring
    have step := ih (a + 1) f
      { puts s ("Iteration " ++ fmt_d s.i ++ "\n") with i := s.i + 1 }
      (by omega) hi1 (by omega)
    simp only [loop, hlt, decide_True, if_true, iterationBody]
    simp only [puts] at step ⊢
    rw [step]
    simp only [List.range'_succ, List.map_cons, unlines, iterationLine, hi, fmt_d_natCast,
      String.append_assoc]

theorem countedLoop_spec (fuel : Nat) (s : State) (h : 43 ≤ fuel) :
    countedLoop fuel s = some (42, { s with
      i := 42
      stdout := s.stdout ++ unlines ((List.range' 0 42).map iterationLine) }) := by
  have := loop_counted 42 0 fuel { s with i := 0 } (by omega) rfl (by omega)
  simpa [countedLoop] using this

theorem foreverLoop_spec (fuel : Nat) (s : State) :
    foreverLoop (fuel + 1) s = some (1, puts s "This will run forever!\n") := by
  simp [foreverLoop, loop, foreverBody]

theorem c_div_zero (a : Int) : c_div a 0 = Except.error Fault.divByZero := by
  simp [c_div]

theorem c_div_nonzero (a d : Int) (hd : d ≠ 0) : c_div a d = Except.ok (Int.tdiv a d) := by
  simp [c_div, hd]

theorem mainWith_zero (fuel : Nat) (frame : State) :
    mainWith fuel frame 0
      = some ({ frame with stdout := "", y := 0 }, Status.faulted Fault.divByZero) := by
  simp [mainWith, c_div_zero]

theorem mainWith_nonzero (fuel : Nat) (frame : State) (d : Int) (hd : d ≠ 0) (h : 43 ≤ fuel) :
    mainWith fuel frame d
      = some ({ x := frame.x, y := d, result := Int.tdiv 10 d, i := 42, unusedVar := 100,
                stdout := expectedOutput }, Status.returned 0) := by
  obtain ⟨f, rfl⟩ : ∃ f, fuel = f + 1 := ⟨fuel - 1, by omega⟩
  simp only [mainWith, c_div_nonzero 10 d hd, countedLoop_spec (f + 1) _ h, foreverLoop_spec,
    puts, expectedOutput, String.empty_append]

set_option maxRecDepth 100000 in
theorem expectedOutput_eq : expectedOutput = "Iteration 0\nIteration 1\nIteration 2\nIteration 3\nIteration 4\nIteration 5\nIteration 6\nIteration 7\nIteration 8\nIteration 9\nIteration 10\nIteration 11\nIteration 12\nIteration 13\nIteration 14\nIteration 15\nIteration 16\nIteration 17\nIteration 18\nIteration 19\nIteration 20\nIteration 21\nIteration 22\nIteration 23\nIteration 24\nIteration 25\nIteration 26\nIteration 27\nIteration 28\nIteration 29\nIteration 30\nIteration 31\nIteration 32\nIteration 33\nIteration 34\nIteration 35\nIteration 36\nIteration 37\nIteration 38\nIteration 39\nIteration 40\nIteration 41\nThis will run forever!\n" := by
  decide

theorem lines_expectedOutput :
    lines expectedOutput = (List.range 42).map iterationLine ++ ["This will run forever!"] := by
  decide

theorem lines_length_expectedOutput : (lines expectedOutput).length = 43 := by
  rw [lines_expectedOutput]; rfl

set_option maxRecDepth 100000 in
theorem unlines_lines_expectedOutput : unlines (lines expectedOutput) = expectedOutput := by
  rw [lines_expectedOutput]; decide

theorem iterationLines_expectedOutput :
    (lines expectedOutput).filter isIterationLine = (List.range 42).map iterationLine := by
  rw [lines_expectedOutput]; decide

/-- The values stored by `main` fit an `int`: the quotient lies in `[-10, 10]`
for every divisor, so unbounded integers model the 32-bit locals exactly. -/
theorem c_div_ten_bounds (d q : Int) (h : c_div 10 d = Except.ok q) : -10 ≤ q ∧ q ≤ 10 := by
  by_cases hd : d = 0
  · simp [hd, c_div] at h
  · simp only [c_div, hd, if_false, Except.ok.injEq] at h
    subst h
    have hn : (Int.tdiv 10 d).natAbs ≤ 10 := by
      rw [Int.natAbs_tdiv]
      exact Nat.div_le_self _ _
    omega

/-! ## The claims -/

/-- C1: the program as written (`y = 0`) ends in the division-by-zero fault at
`10 / y` whatever the fuel and the initial frame; the output written up to that
point is empty, and the run does not end by `return`. -/
theorem main_faults_with_empty_output (fuel : Nat) (frame : State) :
    observe (main fuel frame)
        = some { stdout := "", status := Status.faulted Fault.divByZero }
      ∧ (∀ st code, main fuel frame ≠ some (st, Status.returned code))
      ∧ (∀ st status, main fuel frame = some (st, status) →
          st.stdout.length = 0 ∧ lines st.stdout = []) := by
  refine ⟨?_, ?_, ?_⟩
  · simp [main, mainWith_zero, observe]
  · intro st code h
    simp [main, mainWith_zero] at h
  · intro st status h
    simp only [main, mainWith_zero, Option.some.injEq, Prod.mk.injEq] at h
    rw [← h.1]
    exact ⟨rfl, rfl⟩

/-- C2: with a non-zero divisor the counted loop executes its body exactly 42
times and appends the lines `Iteration 0`, …, `Iteration 41`; in the output of
the run the lines of the form `Iteration <i>` are exactly these 42, the k-th
line of the output is `Iteration k` for every `k < 42`, every line is newline
terminated, and there is no line `Iteration 42`. -/
theorem counted_loop_emits_iterations (fuel : Nat) (frame s : State) (d : Int)
    (hd : d ≠ 0) (hfuel : 43 ≤ fuel) :
    countedLoop fuel s = some (42, { s with
        i := 42
        stdout := s.stdout ++ unlines ((List.range 42).map iterationLine) })
      ∧ ∃ out, observe (mainWith fuel frame d)
            = some { stdout := out, status := Status.returned 0 }
          ∧ out = unlines (lines out)
          ∧ (lines out).filter isIterationLine = (List.range 42).map iterationLine
          ∧ ((lines out).filter isIterationLine).length = 42
          ∧ (∀ k, k < 42 → (lines out)[k]? = some ("Iteration " ++ Nat.repr k))
          ∧ "Iteration 42" ∉ lines out := by
  refine ⟨?_, expectedOutput, ?_, unlines_lines_expectedOutput.symm,
    iterationLines_expectedOutput, ?_, ?_, ?_⟩
  · rw [countedLoop_spec fuel s hfuel, List.range_eq_range']
  · simp [mainWith_nonzero fuel frame d hd hfuel, observe]
  · rw [iterationLines_expectedOutput]; simp
  · intro k hk
    rw [lines_expectedOutput, List.getElem?_append_left (by simpa using hk)]
    simp [List.getElem?_range hk, iterationLine]
  · rw [lines_expectedOutput]; decide

theorem counted_loop_emits_iterations_witness :
    (3 : Int) ≠ 0 ∧ 43 ≤ 43
      ∧ countedLoop 43 sampleFrame = some (42, { sampleFrame with
          i := 42
          stdout := sampleFrame.stdout ++ unlines ((List.range 42).map iterationLine) })
      ∧ ∃ out, observe (mainWith 43 sampleFrame 3)
            = some { stdout := out, status := Status.returned 0 }
          ∧ out = unlines (lines out)
          ∧ (lines out).filter isIterationLine = (List.range 42).map iterationLine
          ∧ ((lines out).filter isIterationLine).length = 42
          ∧ (∀ k, k < 42 → (lines out)[k]? = some ("Iteration " ++ Nat.repr k))
          ∧ "Iteration 42" ∉ lines out :=
  ⟨by decide, by decide,
    counted_loop_emits_iterations 43 sampleFrame sampleFrame 3 (by decide) (by decide)⟩

/-- C3: with a non-zero divisor the complete output is the 42 lines
`Iteration 0` … `Iteration 41` followed by the line `This will run forever!`
and nothing else (43 newline-terminated lines), and `main` returns 0. -/
theorem main_complete_output (fuel : Nat) (frame : State) (d : Int)
    (hd : d ≠ 0) (hfuel : 43 ≤ fuel) :
    observe (mainWith fuel frame d)
        = some { stdout := "Iteration 0\nIteration 1\nIteration 2\nIteration 3\nIteration 4\nIteration 5\nIteration 6\nIteration 7\nIteration 8\nIteration 9\nIteration 10\nIteration 11\nIteration 12\nIteration 13\nIteration 14\nIteration 15\nIteration 16\nIteration 17\nIteration 18\nIteration 19\nIteration 20\nIteration 21\nIteration 22\nIteration 23\nIteration 24\nIteration 25\nIteration 26\nIteration 27\nIteration 28\nIteration 29\nIteration 30\nIteration 31\nIteration 32\nIteration 33\nIteration 34\nIteration 35\nIteration 36\nIteration 37\nIteration 38\nIteration 39\nIteration 40\nIteration 41\nThis will run forever!\n", status := Status.returned 0 }
      ∧ lines "Iteration 0\nIteration 1\nIteration 2\nIteration 3\nIteration 4\nIteration 5\nIteration 6\nIteration 7\nIteration 8\nIteration 9\nIteration 10\nIteration 11\nIteration 12\nIteration 13\nIteration 14\nIteration 15\nIteration 16\nIteration 17\nIteration 18\nIteration 19\nIteration 20\nIteration 21\nIteration 22\nIteration 23\nIteration 24\nIteration 25\nIteration 26\nIteration 27\nIteration 28\nIteration 29\nIteration 30\nIteration 31\nIteration 32\nIteration 33\nIteration 34\nIteration 35\nIteration 36\nIteration 37\nIteration 38\nIteration 39\nIteration 40\nIteration 41\nThis will run forever!\n"
        = (List.range 42).map iterationLine ++ ["This will run forever!"]
      ∧ (lines "Iteration 0\nIteration 1\nIteration 2\nIteration 3\nIteration 4\nIteration 5\nIteration 6\nIteration 7\nIteration 8\nIteration 9\nIteration 10\nIteration 11\nIteration 12\nIteration 13\nIteration 14\nIteration 15\nIteration 16\nIteration 17\nIteration 18\nIteration 19\nIteration 20\nIteration 21\nIteration 22\nIteration 23\nIteration 24\nIteration 25\nIteration 26\nIteration 27\nIteration 28\nIteration 29\nIteration 30\nIteration 31\nIteration 32\nIteration 33\nIteration 34\nIteration 35\nIteration 36\nIteration 37\nIteration 38\nIteration 39\nIteration 40\nIteration 41\nThis will run forever!\n").length = 43
      ∧ unlines (lines "Iteration 0\nIteration 1\nIteration 2\nIteration 3\nIteration 4\nIteration 5\nIteration 6\nIteration 7\nIteration 8\nIteration 9\nIteration 10\nIteration 11\nIteration 12\nIteration 13\nIteration 14\nIteration 15\nIteration 16\nIteration 17\nIteration 18\nIteration 19\nIteration 20\nIteration 21\nIteration 22\nIteration 23\nIteration 24\nIteration 25\nIteration 26\nIteration 27\nIteration 28\nIteration 29\nIteration 30\nIteration 31\nIteration 32\nIteration 33\nIteration 34\nIteration 35\nIteration 36\nIteration 37\nIteration 38\nIteration 39\nIteration 40\nIteration 41\nThis will run forever!\n") = "Iteration 0\nIteration 1\nIteration 2\nIteration 3\nIteration 4\nIteration 5\nIteration 6\nIteration 7\nIteration 8\nIteration 9\nIteration 10\nIteration 11\nIteration 12\nIteration 13\nIteration 14\nIteration 15\nIteration 16\nIteration 17\nIteration 18\nIteration 19\nIteration 20\nIteration 21\nIteration 22\nIteration 23\nIteration 24\nIteration 25\nIteration 26\nIteration 27\nIteration 28\nIteration 29\nIteration 30\nIteration 31\nIteration 32\nIteration 33\nIteration 34\nIteration 35\nIteration 36\nIteration 37\nIteration 38\nIteration 39\nIteration 40\nIteration 41\nThis will run forever!\n" := by
  rw [← expectedOutput_eq]
  refine ⟨?_, lines_expectedOutput, lines_length_expectedOutput, unlines_lines_expectedOutput⟩
  simp [mainWith_nonzero fuel frame d hd hfuel, observe]

theorem main_complete_output_witness :
    (-5 : Int) ≠ 0 ∧ 43 ≤ 50
      ∧ observe (mainWith 50 sampleFrame (-5))
        = some { stdout := "Iteration 0\nIteration 1\nIteration 2\nIteration 3\nIteration 4\nIteration 5\nIteration 6\nIteration 7\nIteration 8\nIteration 9\nIteration 10\nIteration 11\nIteration 12\nIteration 13\nIteration 14\nIteration 15\nIteration 16\nIteration 17\nIteration 18\nIteration 19\nIteration 20\nIteration 21\nIteration 22\nIteration 23\nIteration 24\nIteration 25\nIteration 26\nIteration 27\nIteration 28\nIteration 29\nIteration 30\nIteration 31\nIteration 32\nIteration 33\nIteration 34\nIteration 35\nIteration 36\nIteration 37\nIteration 38\nIteration 39\nIteration 40\nIteration 41\nThis will run forever!\n", status := Status.returned 0 } :=
  ⟨by decide, by decide, (main_complete_output 50 sampleFrame (-5) (by decide) (by decide)).1⟩

/-- C4: the `while (1)` loop terminates from every state as soon as it has fuel
for one round: its body is executed exactly once, appending exactly the line
`This will run forever!` and a newline; in the output of a run of `main` that
reaches the loop the line occurs exactly once. -/
theorem forever_loop_runs_once (fuel : Nat) (frame s : State) (d : Int)
    (hd : d ≠ 0) (hfuel : 43 ≤ fuel) :
    (∀ n, foreverLoop (n + 1) s
        = some (1, { s with stdout := s.stdout ++ "This will run forever!\n" }))
      ∧ ∃ out, observe (mainWith fuel frame d)
            = some { stdout := out, status := Status.returned 0 }
          ∧ (lines out).count "This will run forever!" = 1 := by
  refine ⟨fun n => by rw [foreverLoop_spec]; rfl, expectedOutput, ?_, ?_⟩
  · simp [mainWith_nonzero fuel frame d hd hfuel, observe]
  · rw [lines_expectedOutput]; decide

theorem forever_loop_runs_once_witness :
    (1 : Int) ≠ 0 ∧ 43 ≤ 43
      ∧ (∀ n, foreverLoop (n + 1) sampleFrame
          = some (1, { sampleFrame with
              stdout := sampleFrame.stdout ++ "This will run forever!\n" }))
      ∧ ∃ out, observe (mainWith 43 sampleFrame 1)
            = some { stdout := out, status := Status.returned 0 }
          ∧ (lines out).count "This will run forever!" = 1 :=
  ⟨by decide, by decide,
    forever_loop_runs_once 43 sampleFrame sampleFrame 1 (by decide) (by decide)⟩

/-- C5: with the divisor as the parameter `d`, the run ends in the
division-by-zero fault if and only if `d = 0`; for `d ≠ 0` it returns 0; and
every fault of a run is the division fault, raised at `d = 0`. -/
theorem fault_iff_divisor_zero (fuel : Nat) (frame : State) (d : Int) (hfuel : 43 ≤ fuel) :
    ((observe (mainWith fuel frame d)).map (fun o => o.status)
          = some (Status.faulted Fault.divByZero) ↔ d = 0)
      ∧ (d ≠ 0 → (observe (mainWith fuel frame d)).map (fun o => o.status)
          = some (Status.returned 0))
      ∧ (∀ f, (observe (mainWith fuel frame d)).map (fun o => o.status)
          = some (Status.faulted f) → f = Fault.divByZero ∧ d = 0) := by
  by_cases hd : d = 0
  · subst hd
    simp [mainWith_zero, observe]
  · simp [mainWith_nonzero fuel frame d hd hfuel, observe, hd]

theorem fault_iff_divisor_zero_witness :
    43 ≤ 43
      ∧ ((observe (mainWith 43 sampleFrame 0)).map (fun o => o.status)
            = some (Status.faulted Fault.divByZero) ↔ (0 : Int) = 0)
      ∧ ((0 : Int) ≠ 0 → (observe (mainWith 43 sampleFrame 0)).map (fun o => o.status)
            = some (Status.returned 0))
      ∧ (∀ f, (observe (mainWith 43 sampleFrame 0)).map (fun o => o.status)
            = some (Status.faulted f) → f = Fault.divByZero ∧ (0 : Int) = 0) :=
  ⟨by decide, fault_iff_divisor_zero 43 sampleFrame 0 (by decide)⟩

/-- C6: the initial value of the uninitialized variable `x` has no influence:
for every two values of the slot `x` on entry and every divisor, both runs
terminate with the same output and the same exit status or fault. -/
theorem uninitialized_x_has_no_effect (fuel : Nat) (frame : State) (x1 x2 d : Int)
    (hfuel : 43 ≤ fuel) :
    observe (mainWith fuel { frame with x := x1 } d)
        = observe (mainWith fuel { frame with x := x2 } d)
      ∧ (observe (mainWith fuel { frame with x := x1 } d)).isSome = true := by
  by_cases hd : d = 0
  · subst hd
    simp [mainWith_zero, observe]
  · simp [mainWith_nonzero fuel _ d hd hfuel, observe]

theorem uninitialized_x_has_no_effect_witness :
    43 ≤ 43
      ∧ observe (mainWith 43 { sampleFrame with x := 0 } 2)
          = observe (mainWith 43 { sampleFrame with x := -2147483648 } 2)
      ∧ (observe (mainWith 43 { sampleFrame with x := 0 } 2)).isSome = true :=
  ⟨by decide, uninitialized_x_has_no_effect 43 sampleFrame 0 (-2147483648) 2 (by decide)⟩

/-- C7: deleting the assignment `unusedVar = 100` changes nothing observable:
for every fuel, frame and divisor both programs give the same output and the
same exit status or fault, and with enough fuel both terminate. -/
theorem dead_store_has_no_effect (fuel : Nat) (frame : State) (d : Int) :
    observe (mainWithoutDeadStore fuel frame d) = observe (mainWith fuel frame d)
      ∧ (observe (mainWith (fuel + 43) frame d)).isSome = true := by
  constructor
  · by_cases hd : d = 0
    · subst hd
      simp [mainWithoutDeadStore, mainWith, c_div_zero]
    · simp only [mainWithoutDeadStore, mainWith, c_div_nonzero 10 d hd]
      cases hc : countedLoop fuel _ with
      | none => rfl
      | some p =>
        obtain ⟨n, s3⟩ := p
        cases fuel with
        | zero => rfl
        | succ f => simp [foreverLoop_spec, puts, observe]
  · by_cases hd : d = 0
    · subst hd
      simp [mainWith_zero, observe]
    · simp [mainWith_nonzero (fuel + 43) frame d hd (by omega), observe]

/-- C8: replacing the always-true loop with unconditional `break` by its print
statement executed once gives a program with the same output and the same
exit status or fault, for every fuel, frame and divisor; with enough fuel
both terminate. -/
theorem forever_loop_is_straight_line (fuel : Nat) (frame : State) (d : Int) :
    observe (mainStraightLine fuel frame d) = observe (mainWith fuel frame d)
      ∧ (observe (mainWith (fuel + 43) frame d)).isSome = true := by
  constructor
  · by_cases hd : d = 0
    · subst hd
      simp [mainStraightLine, mainWith, c_div_zero]
    · simp only [mainStraightLine, mainWith, c_div_nonzero 10 d hd]
      cases hc : countedLoop fuel _ with
      | none => rfl
      | some p =>
        obtain ⟨n, s3⟩ := p
        cases fuel with
        | zero => simp [countedLoop, loop] at hc
        | succ f => simp [foreverLoop_spec, puts, observe]
  · by_cases hd : d = 0
    · subst hd
      simp [mainWith_zero, observe]
    · simp [mainWith_nonzero (fuel + 43) frame d hd (by omega), observe]

/-- C9: the quotient `result` is never read: any two non-zero divisors give
runs with identical output and identical exit status, namely the full 43
lines and status 0. -/
theorem nonzero_divisor_has_no_effect (fuel : Nat) (frame : State) (d1 d2 : Int)
    (h1 : d1 ≠ 0) (h2 : d2 ≠ 0) (hfuel : 43 ≤ fuel) :
    observe (mainWith fuel frame d1) = observe (mainWith fuel frame d2)
      ∧ observe (mainWith fuel frame d1)
        = some { stdout := expectedOutput, status := Status.returned 0 } := by
  simp [mainWith_nonzero fuel frame _ h1 hfuel, mainWith_nonzero fuel frame _ h2 hfuel, observe]

theorem nonzero_divisor_has_no_effect_witness :
    (1 : Int) ≠ 0 ∧ (-3 : Int) ≠ 0 ∧ 43 ≤ 43
      ∧ observe (mainWith 43 sampleFrame 1) = observe (mainWith 43 sampleFrame (-3))
      ∧ observe (mainWith 43 sampleFrame 1)
        = some { stdout := expectedOutput, status := Status.returned 0 } :=
  ⟨by decide, by decide, by decide,
    nonzero_divisor_has_no_effect 43 sampleFrame 1 (-3) (by decide) (by decide) (by decide)⟩

end CodeGuard
